import Mathlib

/-!
Verification of the scaredy-cat repository: a shallow embedding of the
presence-confirmation detection loop (`scaredycat.py` / `watchcat.py`),
the detection filters, the servo/electromagnet actuator controller
(`scaredycat/tickcontroller.py`) and the stepper motor (`watchcat/motor.py`),
with theorems settling the specification's claims.

Conventions of the embedding:
* numpy float quantities (detection coordinates, scores, gaze percentages,
  threshold constants) are modelled as exact rationals (ℚ);
* Python `round(x, 2)` is modelled as `round2` below.  Python rounds
  half-to-even while Mathlib's `round` rounds half-up; the two agree except
  at exact half-cent ties, which occur in none of the values the claims are
  about, and cancel in the filter theorems because the same rounded value
  appears on both sides of each comparison;
* Python `%` on integers matches `Int.emod`, which is the meaning of `%`
  on ℤ in Lean;
* side effects (socket sends, GPIO writes, servo pulse-width writes) are
  modelled as explicit output lists; `raise` is modelled with `Except`.
-/

namespace ScaredyCat

/-- Control messages sent from the detection process to the actuator
process (`TickController.PAUSE_SIGNAL` / `TickController.UNPAUSE_SIGNAL`). -/
inductive ControlMsg where
  | pauseSignal
  | unpauseSignal
deriving DecidableEq, Repr

/-- Class constant `__NUM_CONSECUTIVE_FACE_FRAMES_TO_CONFIRM_FACE` of
`ScaredyCat` in `scaredycat/scaredycat.py`. -/
def NUM_CONSECUTIVE_FACE_FRAMES_TO_CONFIRM_FACE : ℕ := 1

/-- Class constant `__NUM_CONSECUTIVE_EMPTY_FRAMES_TO_CONFIRM_EMPTY` of
`ScaredyCat` in `scaredycat/scaredycat.py`. -/
def NUM_CONSECUTIVE_EMPTY_FRAMES_TO_CONFIRM_EMPTY : ℕ := 5

/-- Mutable state of `ScaredyCat.run` in `scaredycat/scaredycat.py`:
the consecutive-frame counters and face-location buffers held on `self`,
plus the local variable `is_paused` of `run`.  The element type `α` stands
for one face-detection row. -/
structure RunState (α : Type) where
  numConsecutiveFaceFrames : ℕ
  numConsecutiveEmptyFrames : ℕ
  confirmedFaceLocations : List α
  unconfirmedFaceLocations : List α
  isPaused : Bool
deriving Repr

/-- Initial state: counters zero, both buffers empty (set in
`ScaredyCat.__init__`), `is_paused = False` (set at the top of `run`). -/
def initState (α : Type) : RunState α :=
  { numConsecutiveFaceFrames := 0
    numConsecutiveEmptyFrames := 0
    confirmedFaceLocations := []
    unconfirmedFaceLocations := []
    isPaused := false }

/-- One iteration of the `while True` loop body of `ScaredyCat.run`
(lines 198–219 of `scaredycat/scaredycat.py`), applied to the filtered
candidate set `faceLocations` of the current frame.  Returns the updated
state and the control message sent over the unix socket, if any.
The confirmation thresholds are passed as parameters so that the same
transition function serves both the `ScaredyCat` constants (1, 5) and the
`WatchCat` constants (3, 5). -/
def runFrame (numToConfirmFace numToConfirmEmpty : ℕ) {α : Type}
    (s : RunState α) (faceLocations : List α) :
    RunState α × Option ControlMsg :=
  if 0 < faceLocations.length then
    let n := s.numConsecutiveFaceFrames + 1
    if numToConfirmFace ≤ n then
      let s' : RunState α :=
        { numConsecutiveFaceFrames := n
          numConsecutiveEmptyFrames := 0
          confirmedFaceLocations := faceLocations
          unconfirmedFaceLocations := []
          isPaused := s.isPaused }
      if s'.isPaused = false then
        ({ s' with isPaused := true }, some ControlMsg.pauseSignal)
      else
        (s', none)
    else
      ({ s with numConsecutiveFaceFrames := n
                unconfirmedFaceLocations := faceLocations }, none)
  else
    let n := s.numConsecutiveEmptyFrames + 1
    if numToConfirmEmpty ≤ n then
      let s' : RunState α :=
        { numConsecutiveFaceFrames := 0
          numConsecutiveEmptyFrames := n
          confirmedFaceLocations := []
          unconfirmedFaceLocations := []
          isPaused := s.isPaused }
      if s'.isPaused = true then
        ({ s' with isPaused := false }, some ControlMsg.unpauseSignal)
      else
        (s', none)
    else
      ({ s with numConsecutiveEmptyFrames := n
                unconfirmedFaceLocations := [] }, none)

/-- Iterated detection loop: process the frames in order, collecting the
control messages sent. -/
def runFrames (numToConfirmFace numToConfirmEmpty : ℕ) {α : Type}
    (s : RunState α) : List (List α) → RunState α × List ControlMsg
  | [] => (s, [])
  | locs :: rest =>
    let p := runFrame numToConfirmFace numToConfirmEmpty s locs
    let q := runFrames numToConfirmFace numToConfirmEmpty p.1 rest
    (q.1, p.2.toList ++ q.2)

end ScaredyCat

namespace WatchCat

/-- Class constant `__NUM_CONSECUTIVE_FACE_FRAMES_TO_CONFIRM_FACE` of
`WatchCat` in `watchcat/watchcat.py`. -/
def NUM_CONSECUTIVE_FACE_FRAMES_TO_CONFIRM_FACE : ℕ := 3

/-- Class constant `__NUM_CONSECUTIVE_EMPTY_FRAMES_TO_CONFIRM_EMPTY` of
`WatchCat` in `watchcat/watchcat.py`. -/
def NUM_CONSECUTIVE_EMPTY_FRAMES_TO_CONFIRM_EMPTY : ℕ := 5

/-- Mutable state of `WatchCat.run` in `watchcat/watchcat.py`: like
`ScaredyCat.RunState` but without the unconfirmed-locations buffer, which
this variant does not keep. -/
structure RunState (α : Type) where
  numConsecutiveFaceFrames : ℕ
  numConsecutiveEmptyFrames : ℕ
  confirmedFaceLocations : List α
  isPaused : Bool
deriving Repr

/-- Initial state of the `WatchCat` loop. -/
def initState (α : Type) : RunState α :=
  { numConsecutiveFaceFrames := 0
    numConsecutiveEmptyFrames := 0
    confirmedFaceLocations := []
    isPaused := false }

/-- One iteration of the `while True` loop body of `WatchCat.run`
(lines 142–159 of `watchcat/watchcat.py`).  Same counter logic as
`ScaredyCat.runFrame`, without the unconfirmed buffer. -/
def runFrame (numToConfirmFace numToConfirmEmpty : ℕ) {α : Type}
    (s : RunState α) (faceLocations : List α) :
    RunState α × Option ScaredyCat.ControlMsg :=
  if 0 < faceLocations.length then
    let n := s.numConsecutiveFaceFrames + 1
    if numToConfirmFace ≤ n then
      let s' : RunState α :=
        { numConsecutiveFaceFrames := n
          numConsecutiveEmptyFrames := 0
          confirmedFaceLocations := faceLocations
          isPaused := s.isPaused }
      if s'.isPaused = false then
        ({ s' with isPaused := true }, some ScaredyCat.ControlMsg.pauseSignal)
      else
        (s', none)
    else
      ({ s with numConsecutiveFaceFrames := n }, none)
  else
    let n := s.numConsecutiveEmptyFrames + 1
    if numToConfirmEmpty ≤ n then
      let s' : RunState α :=
        { numConsecutiveFaceFrames := 0
          numConsecutiveEmptyFrames := n
          confirmedFaceLocations := []
          isPaused := s.isPaused }
      if s'.isPaused = true then
        ({ s' with isPaused := false }, some ScaredyCat.ControlMsg.unpauseSignal)
      else
        (s', none)
    else
      ({ s with numConsecutiveEmptyFrames := n }, none)

/-- Iterated `WatchCat` detection loop. -/
def runFrames (numToConfirmFace numToConfirmEmpty : ℕ) {α : Type}
    (s : RunState α) : List (List α) → RunState α × List ScaredyCat.ControlMsg
  | [] => (s, [])
  | locs :: rest =>
    let p := runFrame numToConfirmFace numToConfirmEmpty s locs
    let q := runFrames numToConfirmFace numToConfirmEmpty p.1 rest
    (q.1, p.2.toList ++ q.2)

end WatchCat

namespace ScaredyCat

/-- One face-detection row returned by `cv2.FaceDetectorYN` as consumed by
`scaredycat/scaredycat.py`: indices 0–3 are `x, y, w, h`, indices 4–13 the
five landmark (x, y) pairs, index 14 the confidence score.  numpy floats
are modelled as exact rationals. -/
structure Detection where
  x : ℚ
  y : ℚ
  w : ℚ
  h : ℚ
  rightEyeX : ℚ
  rightEyeY : ℚ
  leftEyeX : ℚ
  leftEyeY : ℚ
  noseX : ℚ
  noseY : ℚ
  rightMouthX : ℚ
  rightMouthY : ℚ
  leftMouthX : ℚ
  leftMouthY : ℚ
  score : ℚ
deriving DecidableEq, Repr

/-- Python `round(q, 2)`.  Python rounds half-to-even and Mathlib's `round`
rounds half-up; no value in the claims sits on a half-cent tie, and in the
filter theorems the same rounded quantity appears on both sides of each
comparison, so the difference is immaterial here. -/
def round2 (q : ℚ) : ℚ := (round (100 * q) : ℤ) / 100

/-- Class constant `__INIT_MIN_W`. -/
def INIT_MIN_W : ℚ := 24

/-- Class constant `__INIT_MIN_H`. -/
def INIT_MIN_H : ℚ := 30

/-- Class constant `__REPEAT_MIN_W`. -/
def REPEAT_MIN_W : ℚ := 18

/-- Class constant `__REPEAT_MIN_H`. -/
def REPEAT_MIN_H : ℚ := 22

/-- Class constant `__INIT_GAZE_RANGE` (the gaze filter hard-codes the same
value 0.20 locally). -/
def INIT_GAZE_RANGE : ℚ := 20/100

/-- Class constant `__REPEAT_GAZE_RANGE` (the gaze filter hard-codes the
same value 0.28 locally). -/
def REPEAT_GAZE_RANGE : ℚ := 28/100

/-- `ScaredyCat.__filterFacesByDimensions` (lines 259–287): keep the faces
with `w >= min_w and h >= min_h`, where the initial thresholds apply when no
face is currently confirmed and the repeat thresholds apply otherwise.
The source also computes `x = x + crop_x0`, which feeds only logging and
never the kept set, so it is omitted. -/
def filterFacesByDimensions (confirmedFaceLocations : List Detection)
    (faceLocations : List Detection) : List Detection :=
  let minW := if confirmedFaceLocations.length ≤ 0 then INIT_MIN_W else REPEAT_MIN_W
  let minH := if confirmedFaceLocations.length ≤ 0 then INIT_MIN_H else REPEAT_MIN_H
  faceLocations.filter fun f => decide (minW ≤ f.w ∧ minH ≤ f.h)

/-- Gaze percentage of one face, computed in `ScaredyCat.__filterFacesByGaze`
(lines 308–320): one minus the mean of the five landmark horizontal offsets
(landmark x minus detection x) divided by the face width, rounded to two
decimal places. -/
def gazePct (face : Detection) : ℚ :=
  let rightEyeX := face.rightEyeX - face.x
  let leftEyeX := face.leftEyeX - face.x
  let noseX := face.noseX - face.x
  let rightMouthX := face.rightMouthX - face.x
  let leftMouthX := face.leftMouthX - face.x
  round2 (1 - ((rightEyeX + leftEyeX + noseX + rightMouthX + leftMouthX) / 5 / face.w))

/-- `ScaredyCat.__filterFacesByGaze` (lines 293–334): keep the faces whose
gaze percentage lies (inclusively) in the band
`[round2 ((1-range)/2), round2 ((1-range)/2 + range)]`, with range 0.20 when
no face is confirmed and 0.28 otherwise (the source's local `mid_col_pct`). -/
def filterFacesByGaze (confirmedFaceLocations : List Detection)
    (faceLocations : List Detection) : List Detection :=
  let midColPct : ℚ :=
    if confirmedFaceLocations.length ≤ 0 then 20/100 else 28/100
  let minGazePctRaw := (1 - midColPct) / 2
  let maxGazePct := round2 (minGazePctRaw + midColPct)
  let minGazePct := round2 minGazePctRaw
  faceLocations.filter fun face =>
    decide (minGazePct ≤ gazePct face ∧ gazePct face ≤ maxGazePct)

end ScaredyCat

/-- One `ScaredyCat` frame preserves "the counters are not both at or above
their thresholds" (for positive thresholds). -/
theorem ScaredyCat.runFrame_preserves_not_both_ge (Nf Ne : ℕ)
    (hNf : 1 ≤ Nf) (hNe : 1 ≤ Ne) {α : Type}
    (s : ScaredyCat.RunState α) (locs : List α)
    (h : ¬(Nf ≤ s.numConsecutiveFaceFrames ∧ Ne ≤ s.numConsecutiveEmptyFrames)) :
    ¬(Nf ≤ (ScaredyCat.runFrame Nf Ne s locs).1.numConsecutiveFaceFrames ∧
      Ne ≤ (ScaredyCat.runFrame Nf Ne s locs).1.numConsecutiveEmptyFrames) := by
  unfold ScaredyCat.runFrame
  split_ifs <;> simp_all
  all_goals try split_ifs <;> simp_all
  all_goals omega

/-- One `WatchCat` frame preserves "the counters are not both at or above
their thresholds" (for positive thresholds). -/
theorem WatchCat.watchcatRunFrame_preserves_not_both_ge (Nf Ne : ℕ)
    (hNf : 1 ≤ Nf) (hNe : 1 ≤ Ne) {α : Type}
    (s : WatchCat.RunState α) (locs : List α)
    (h : ¬(Nf ≤ s.numConsecutiveFaceFrames ∧ Ne ≤ s.numConsecutiveEmptyFrames)) :
    ¬(Nf ≤ (WatchCat.runFrame Nf Ne s locs).1.numConsecutiveFaceFrames ∧
      Ne ≤ (WatchCat.runFrame Nf Ne s locs).1.numConsecutiveEmptyFrames) := by
  unfold WatchCat.runFrame
  split_ifs <;> simp_all
  all_goals try split_ifs <;> simp_all
  all_goals omega

/-- Folding the `ScaredyCat` loop over any frame sequence preserves the
not-both-at-threshold invariant. -/
theorem ScaredyCat.runFrames_not_both_ge (Nf Ne : ℕ)
    (hNf : 1 ≤ Nf) (hNe : 1 ≤ Ne) {α : Type} (frames : List (List α))
    (s : ScaredyCat.RunState α)
    (h : ¬(Nf ≤ s.numConsecutiveFaceFrames ∧ Ne ≤ s.numConsecutiveEmptyFrames)) :
    ¬(Nf ≤ (ScaredyCat.runFrames Nf Ne s frames).1.numConsecutiveFaceFrames ∧
      Ne ≤ (ScaredyCat.runFrames Nf Ne s frames).1.numConsecutiveEmptyFrames) := by
  induction frames generalizing s with
  | nil => exact h
  | cons locs rest ih =>
    exact ih _ (ScaredyCat.runFrame_preserves_not_both_ge Nf Ne hNf hNe s locs h)

/-- Folding the `WatchCat` loop over any frame sequence preserves the
not-both-at-threshold invariant. -/
theorem WatchCat.watchcatRunFrames_not_both_ge (Nf Ne : ℕ)
    (hNf : 1 ≤ Nf) (hNe : 1 ≤ Ne) {α : Type} (frames : List (List α))
    (s : WatchCat.RunState α)
    (h : ¬(Nf ≤ s.numConsecutiveFaceFrames ∧ Ne ≤ s.numConsecutiveEmptyFrames)) :
    ¬(Nf ≤ (WatchCat.runFrames Nf Ne s frames).1.numConsecutiveFaceFrames ∧
      Ne ≤ (WatchCat.runFrames Nf Ne s frames).1.numConsecutiveEmptyFrames) := by
  induction frames generalizing s with
  | nil => exact h
  | cons locs rest ih =>
    exact ih _ (WatchCat.watchcatRunFrame_preserves_not_both_ge Nf Ne hNf hNe s locs h)

/-- A non-empty filtered frame processed while unpaused (with the
`ScaredyCat` confirm-after-one-frame threshold) confirms the face and
emits the PAUSE signal. -/
theorem ScaredyCat.runFrame_nonempty_unpaused {α : Type}
    (s : ScaredyCat.RunState α) (locs : List α) (hl : locs ≠ [])
    (hp : s.isPaused = false) :
    ScaredyCat.runFrame 1 5 s locs =
      ({ numConsecutiveFaceFrames := s.numConsecutiveFaceFrames + 1
         numConsecutiveEmptyFrames := 0
         confirmedFaceLocations := locs
         unconfirmedFaceLocations := []
         isPaused := true }, some ScaredyCat.ControlMsg.pauseSignal) := by
  simp [ScaredyCat.runFrame, hp, List.length_pos.mpr hl]

/-- A non-empty filtered frame processed while paused (with the
`ScaredyCat` confirm-after-one-frame threshold) re-confirms the face and
emits nothing. -/
theorem ScaredyCat.runFrame_nonempty_paused {α : Type}
    (s : ScaredyCat.RunState α) (locs : List α) (hl : locs ≠ [])
    (hp : s.isPaused = true) :
    ScaredyCat.runFrame 1 5 s locs =
      ({ numConsecutiveFaceFrames := s.numConsecutiveFaceFrames + 1
         numConsecutiveEmptyFrames := 0
         confirmedFaceLocations := locs
         unconfirmedFaceLocations := []
         isPaused := true }, none) := by
  simp [ScaredyCat.runFrame, hp, List.length_pos.mpr hl]

/-- Processing any sequence of non-empty filtered frames while paused emits
no message and keeps the loop paused, with a zero empty counter and a
non-empty confirmed set. -/
theorem ScaredyCat.runFrames_nonempty_paused {α : Type}
    (mids : List (List α)) (hm : ∀ l ∈ mids, l ≠ [])
    (s : ScaredyCat.RunState α) (hp : s.isPaused = true)
    (he : s.numConsecutiveEmptyFrames = 0)
    (hc : s.confirmedFaceLocations ≠ []) :
    (ScaredyCat.runFrames 1 5 s mids).2 = [] ∧
    (ScaredyCat.runFrames 1 5 s mids).1.isPaused = true ∧
    (ScaredyCat.runFrames 1 5 s mids).1.numConsecutiveEmptyFrames = 0 ∧
    (ScaredyCat.runFrames 1 5 s mids).1.confirmedFaceLocations ≠ [] := by
  induction mids generalizing s with
  | nil => exact ⟨rfl, hp, he, hc⟩
  | cons locs rest ih =>
    have hstep := ScaredyCat.runFrame_nonempty_paused s locs
      (hm locs (List.mem_cons_self locs rest)) hp
    have := ih (fun l hl => hm l (List.mem_cons_of_mem locs hl))
      (ScaredyCat.runFrame 1 5 s locs).1 (by rw [hstep]) (by rw [hstep])
      (by rw [hstep]; exact hm locs (List.mem_cons_self locs rest))
    refine ⟨?_, this.2.1, this.2.2.1, this.2.2.2⟩
    show ((ScaredyCat.runFrame 1 5 s locs).2.toList ++
      (ScaredyCat.runFrames 1 5 (ScaredyCat.runFrame 1 5 s locs).1 rest).2) = []
    rw [this.1, hstep]
    rfl

/-- Four consecutive empty filtered frames from a zero empty counter emit
nothing and change only the empty counter and the unconfirmed buffer. -/
theorem ScaredyCat.runFrames_four_empty {α : Type}
    (s : ScaredyCat.RunState α) (he : s.numConsecutiveEmptyFrames = 0) :
    (ScaredyCat.runFrames 1 5 s [[], [], [], []]).2 = [] ∧
    (ScaredyCat.runFrames 1 5 s [[], [], [], []]).1.numConsecutiveEmptyFrames = 4 ∧
    (ScaredyCat.runFrames 1 5 s
      [[], [], [], []]).1.numConsecutiveFaceFrames = s.numConsecutiveFaceFrames ∧
    (ScaredyCat.runFrames 1 5 s
      [[], [], [], []]).1.confirmedFaceLocations = s.confirmedFaceLocations ∧
    (ScaredyCat.runFrames 1 5 s [[], [], [], []]).1.isPaused = s.isPaused := by
  simp [ScaredyCat.runFrames, ScaredyCat.runFrame, he]

/-- An empty filtered frame arriving with the empty counter at four (the
fifth consecutive empty frame, at the `ScaredyCat` unconfirm threshold of
five) while paused unconfirms the face, resets the face counter and emits
the UNPAUSE signal. -/
theorem ScaredyCat.runFrame_fifth_empty {α : Type}
    (s : ScaredyCat.RunState α) (he : s.numConsecutiveEmptyFrames = 4)
    (hp : s.isPaused = true) :
    ScaredyCat.runFrame 1 5 s ([] : List α) =
      ({ numConsecutiveFaceFrames := 0
         numConsecutiveEmptyFrames := 5
         confirmedFaceLocations := []
         unconfirmedFaceLocations := []
         isPaused := false }, some ScaredyCat.ControlMsg.unpauseSignal) := by
  simp [ScaredyCat.runFrame, he, hp]

/-- C2: with `N_confirm = 1` and `N_unconfirm = 5`, starting unconfirmed and
unpaused, one non-empty filtered frame confirms the face and emits exactly
one PAUSE; any further non-empty frames emit nothing and stay Confirmed;
four consecutive empty frames emit nothing and stay Confirmed; the fifth
consecutive empty frame emits exactly one UNPAUSE, resets
`consecutive_face_frames` to 0 and leaves the state Empty (no confirmed
face). -/
theorem c2_confirm_then_five_empties_unconfirm {α : Type}
    (first : List α) (h1 : first ≠ [])
    (mids : List (List α)) (hm : ∀ l ∈ mids, l ≠ []) :
    (ScaredyCat.runFrame ScaredyCat.NUM_CONSECUTIVE_FACE_FRAMES_TO_CONFIRM_FACE
        ScaredyCat.NUM_CONSECUTIVE_EMPTY_FRAMES_TO_CONFIRM_EMPTY
        (ScaredyCat.initState α) first).2 = some ScaredyCat.ControlMsg.pauseSignal ∧
    (ScaredyCat.runFrame 1 5 (ScaredyCat.initState α)
        first).1.confirmedFaceLocations ≠ [] ∧
    (ScaredyCat.runFrames 1 5
        (ScaredyCat.runFrame 1 5 (ScaredyCat.initState α) first).1 mids).2 = [] ∧
    (ScaredyCat.runFrames 1 5 (ScaredyCat.runFrame 1 5 (ScaredyCat.initState α)
        first).1 mids).1.confirmedFaceLocations ≠ [] ∧
    (ScaredyCat.runFrames 1 5
        (ScaredyCat.runFrames 1 5
          (ScaredyCat.runFrame 1 5 (ScaredyCat.initState α) first).1 mids).1
        [[], [], [], []]).2 = [] ∧
    (ScaredyCat.runFrames 1 5
        (ScaredyCat.runFrames 1 5
          (ScaredyCat.runFrame 1 5 (ScaredyCat.initState α) first).1 mids).1
        [[], [], [], []]).1.confirmedFaceLocations ≠ [] ∧
    (ScaredyCat.runFrame 1 5
        (ScaredyCat.runFrames 1 5
          (ScaredyCat.runFrames 1 5
            (ScaredyCat.runFrame 1 5 (ScaredyCat.initState α) first).1 mids).1
          [[], [], [], []]).1 []).2 = some ScaredyCat.ControlMsg.unpauseSignal ∧
    (ScaredyCat.runFrame 1 5
        (ScaredyCat.runFrames 1 5
          (ScaredyCat.runFrames 1 5
            (ScaredyCat.runFrame 1 5 (ScaredyCat.initState α) first).1 mids).1
          [[], [], [], []]).1 []).1.numConsecutiveFaceFrames = 0 ∧
    (ScaredyCat.runFrame 1 5
        (ScaredyCat.runFrames 1 5
          (ScaredyCat.runFrames 1 5
            (ScaredyCat.runFrame 1 5 (ScaredyCat.initState α) first).1 mids).1
          [[], [], [], []]).1 []).1.confirmedFaceLocations = [] := by
  simp only [ScaredyCat.NUM_CONSECUTIVE_FACE_FRAMES_TO_CONFIRM_FACE,
    ScaredyCat.NUM_CONSECUTIVE_EMPTY_FRAMES_TO_CONFIRM_EMPTY]
  have hfst := ScaredyCat.runFrame_nonempty_unpaused (ScaredyCat.initState α)
    first h1 rfl
  have hmids := ScaredyCat.runFrames_nonempty_paused mids hm
    (ScaredyCat.runFrame 1 5 (ScaredyCat.initState α) first).1
    (by rw [hfst]) (by rw [hfst]) (by rw [hfst]; exact h1)
  have hfour := ScaredyCat.runFrames_four_empty
    (ScaredyCat.runFrames 1 5
      (ScaredyCat.runFrame 1 5 (ScaredyCat.initState α) first).1 mids).1
    hmids.2.2.1
  have hfifth := ScaredyCat.runFrame_fifth_empty
    (ScaredyCat.runFrames 1 5
      (ScaredyCat.runFrames 1 5
        (ScaredyCat.runFrame 1 5 (ScaredyCat.initState α) first).1 mids).1
      [[], [], [], []]).1
    hfour.2.1 (hfour.2.2.2.2.trans hmids.2.1)
  refine ⟨by rw [hfst], by rw [hfst]; exact h1, hmids.1, hmids.2.2.2,
    hfour.1, ?_, by rw [hfifth], by rw [hfifth], by rw [hfifth]⟩
  rw [hfour.2.2.2.1]
  exact hmids.2.2.2

/-- Witness for `c2_confirm_then_five_empties_unconfirm`: one non-empty
frame `[()]`, then one further non-empty frame, then the five empty frames. -/
theorem c2_confirm_then_five_empties_unconfirm_witness :
    ([()] : List Unit) ≠ [] ∧ (∀ l ∈ ([[()]] : List (List Unit)), l ≠ []) ∧
    ((ScaredyCat.runFrame ScaredyCat.NUM_CONSECUTIVE_FACE_FRAMES_TO_CONFIRM_FACE
        ScaredyCat.NUM_CONSECUTIVE_EMPTY_FRAMES_TO_CONFIRM_EMPTY
        (ScaredyCat.initState Unit) [()]).2 = some ScaredyCat.ControlMsg.pauseSignal ∧
    (ScaredyCat.runFrame 1 5 (ScaredyCat.initState Unit)
        [()]).1.confirmedFaceLocations ≠ [] ∧
    (ScaredyCat.runFrames 1 5
        (ScaredyCat.runFrame 1 5 (ScaredyCat.initState Unit) [()]).1 [[()]]).2 = [] ∧
    (ScaredyCat.runFrames 1 5 (ScaredyCat.runFrame 1 5 (ScaredyCat.initState Unit)
        [()]).1 [[()]]).1.confirmedFaceLocations ≠ [] ∧
    (ScaredyCat.runFrames 1 5
        (ScaredyCat.runFrames 1 5
          (ScaredyCat.runFrame 1 5 (ScaredyCat.initState Unit) [()]).1 [[()]]).1
        [[], [], [], []]).2 = [] ∧
    (ScaredyCat.runFrames 1 5
        (ScaredyCat.runFrames 1 5
          (ScaredyCat.runFrame 1 5 (ScaredyCat.initState Unit) [()]).1 [[()]]).1
        [[], [], [], []]).1.confirmedFaceLocations ≠ [] ∧
    (ScaredyCat.runFrame 1 5
        (ScaredyCat.runFrames 1 5
          (ScaredyCat.runFrames 1 5
            (ScaredyCat.runFrame 1 5 (ScaredyCat.initState Unit) [()]).1 [[()]]).1
          [[], [], [], []]).1 []).2 = some ScaredyCat.ControlMsg.unpauseSignal ∧
    (ScaredyCat.runFrame 1 5
        (ScaredyCat.runFrames 1 5
          (ScaredyCat.runFrames 1 5
            (ScaredyCat.runFrame 1 5 (ScaredyCat.initState Unit) [()]).1 [[()]]).1
          [[], [], [], []]).1 []).1.numConsecutiveFaceFrames = 0 ∧
    (ScaredyCat.runFrame 1 5
        (ScaredyCat.runFrames 1 5
          (ScaredyCat.runFrames 1 5
            (ScaredyCat.runFrame 1 5 (ScaredyCat.initState Unit) [()]).1 [[()]]).1
          [[], [], [], []]).1 []).1.confirmedFaceLocations = []) :=
  ⟨by decide, by decide,
    c2_confirm_then_five_empties_unconfirm [()] (by decide) [[()]] (by decide)⟩

/-- C1 counterexample: with the `ScaredyCat` thresholds (confirm after 1 face
frame, unconfirm after 5 empty frames), one non-empty frame followed by one
empty frame leaves `consecutive_face_frames = 1` and
`consecutive_empty_frames = 1` — both counters are nonzero after the second
frame's update, refuting the claimed invariant. -/
theorem c1_counterexample_both_counters_nonzero :
    0 < ((ScaredyCat.runFrames
        ScaredyCat.NUM_CONSECUTIVE_FACE_FRAMES_TO_CONFIRM_FACE
        ScaredyCat.NUM_CONSECUTIVE_EMPTY_FRAMES_TO_CONFIRM_EMPTY
        (ScaredyCat.initState Unit) [[()], []]).1).numConsecutiveFaceFrames ∧
    0 < ((ScaredyCat.runFrames
        ScaredyCat.NUM_CONSECUTIVE_FACE_FRAMES_TO_CONFIRM_FACE
        ScaredyCat.NUM_CONSECUTIVE_EMPTY_FRAMES_TO_CONFIRM_EMPTY
        (ScaredyCat.initState Unit) [[()], []]).1).numConsecutiveEmptyFrames := by
  decide

/-- C1 (amended): for every frame sequence processed from the initial state by
either detection loop (`ScaredyCat.run` or `WatchCat.run`), with positive
confirmation thresholds, `consecutive_face_frames` and
`consecutive_empty_frames` are never both at or above their respective
thresholds after a frame's update (both may be simultaneously nonzero below
threshold); whenever one counter reaches its threshold, the other is reset to
zero in the same update. -/
theorem c1_counters_never_both_at_threshold (Nf Ne : ℕ)
    (hNf : 1 ≤ Nf) (hNe : 1 ≤ Ne) {α : Type} (frames : List (List α)) :
    (¬(Nf ≤ (ScaredyCat.runFrames Nf Ne (ScaredyCat.initState α)
          frames).1.numConsecutiveFaceFrames ∧
       Ne ≤ (ScaredyCat.runFrames Nf Ne (ScaredyCat.initState α)
          frames).1.numConsecutiveEmptyFrames)) ∧
    (¬(Nf ≤ (WatchCat.runFrames Nf Ne (WatchCat.initState α)
          frames).1.numConsecutiveFaceFrames ∧
       Ne ≤ (WatchCat.runFrames Nf Ne (WatchCat.initState α)
          frames).1.numConsecutiveEmptyFrames)) := by
  constructor
  · exact ScaredyCat.runFrames_not_both_ge Nf Ne hNf hNe frames _ (by simp [ScaredyCat.initState]; omega)
  · exact WatchCat.watchcatRunFrames_not_both_ge Nf Ne hNf hNe frames _ (by simp [WatchCat.initState]; omega)

/-- Witness for `c1_counters_never_both_at_threshold` at the `ScaredyCat`
thresholds (1, 5) on the two-frame sequence of the counterexample. -/
theorem c1_counters_never_both_at_threshold_witness :
    (1:ℕ) ≤ 1 ∧ (1:ℕ) ≤ 5 ∧
    ((¬((1:ℕ) ≤ (ScaredyCat.runFrames 1 5 (ScaredyCat.initState Unit)
          [[()], []]).1.numConsecutiveFaceFrames ∧
       (5:ℕ) ≤ (ScaredyCat.runFrames 1 5 (ScaredyCat.initState Unit)
          [[()], []]).1.numConsecutiveEmptyFrames)) ∧
    (¬((1:ℕ) ≤ (WatchCat.runFrames 1 5 (WatchCat.initState Unit)
          [[()], []]).1.numConsecutiveFaceFrames ∧
       (5:ℕ) ≤ (WatchCat.runFrames 1 5 (WatchCat.initState Unit)
          [[()], []]).1.numConsecutiveEmptyFrames))) :=
  ⟨by decide, by decide,
    c1_counters_never_both_at_threshold 1 5 (by decide) (by decide) [[()], []]⟩

/-- A face 23 pixels wide (one below `__INIT_MIN_W = 24`) and 30 pixels
tall (meeting both height thresholds). -/
def ScaredyCat.sampleNarrowFace : ScaredyCat.Detection :=
  { x := 0, y := 0, w := 23, h := 30
    rightEyeX := 0, rightEyeY := 0, leftEyeX := 0, leftEyeY := 0
    noseX := 0, noseY := 0, rightMouthX := 0, rightMouthY := 0
    leftMouthX := 0, leftMouthY := 0, score := 1 }

/-- C6: the dimension filter keeps exactly the faces with
`min_w ≤ w ∧ min_h ≤ h`, with the initial thresholds active when no face is
confirmed and the repeat thresholds active when one is; a face of width
`__INIT_MIN_W - 1 = 23` (and ample height) is rejected while unconfirmed but
accepted while confirmed, since `__REPEAT_MIN_W = 18 ≤ 23`. -/
theorem c6_dimension_filter_thresholds :
    (∀ (confirmed faces : List ScaredyCat.Detection) (f : ScaredyCat.Detection),
      f ∈ ScaredyCat.filterFacesByDimensions confirmed faces ↔
        f ∈ faces ∧
        (if confirmed.length ≤ 0 then ScaredyCat.INIT_MIN_W
          else ScaredyCat.REPEAT_MIN_W) ≤ f.w ∧
        (if confirmed.length ≤ 0 then ScaredyCat.INIT_MIN_H
          else ScaredyCat.REPEAT_MIN_H) ≤ f.h) ∧
    ScaredyCat.sampleNarrowFace.w = ScaredyCat.INIT_MIN_W - 1 ∧
    ScaredyCat.REPEAT_MIN_W ≤ ScaredyCat.sampleNarrowFace.w ∧
    ScaredyCat.sampleNarrowFace ∉
      ScaredyCat.filterFacesByDimensions [] [ScaredyCat.sampleNarrowFace] ∧
    ScaredyCat.sampleNarrowFace ∈
      ScaredyCat.filterFacesByDimensions [ScaredyCat.sampleNarrowFace]
        [ScaredyCat.sampleNarrowFace] := by
  refine ⟨?_, ?_, ?_, ?_, ?_⟩
  · intro confirmed faces f
    simp [ScaredyCat.filterFacesByDimensions, List.mem_filter]
  · norm_num [ScaredyCat.sampleNarrowFace, ScaredyCat.INIT_MIN_W]
  · norm_num [ScaredyCat.sampleNarrowFace, ScaredyCat.REPEAT_MIN_W]
  · norm_num [ScaredyCat.filterFacesByDimensions, ScaredyCat.sampleNarrowFace,
      ScaredyCat.INIT_MIN_W, ScaredyCat.INIT_MIN_H]
  · norm_num [ScaredyCat.filterFacesByDimensions, ScaredyCat.sampleNarrowFace,
      ScaredyCat.REPEAT_MIN_W, ScaredyCat.REPEAT_MIN_H]

/-- A face of width 100 at x = 0 with all five landmarks at horizontal
offset 60, so its gaze percentage is exactly 0.40 — the lower band bound of
the initial gaze range. -/
def ScaredyCat.gazeAtLowerBoundFace : ScaredyCat.Detection :=
  { x := 0, y := 0, w := 100, h := 100
    rightEyeX := 60, rightEyeY := 0, leftEyeX := 60, leftEyeY := 0
    noseX := 60, noseY := 0, rightMouthX := 60, rightMouthY := 0
    leftMouthX := 60, leftMouthY := 0, score := 1 }

/-- A face whose five landmarks sit at horizontal offset 40, giving gaze
percentage exactly 0.60 — the upper band bound of the initial gaze range. -/
def ScaredyCat.gazeAtUpperBoundFace : ScaredyCat.Detection :=
  { x := 0, y := 0, w := 100, h := 100
    rightEyeX := 40, rightEyeY := 0, leftEyeX := 40, leftEyeY := 0
    noseX := 40, noseY := 0, rightMouthX := 40, rightMouthY := 0
    leftMouthX := 40, leftMouthY := 0, score := 1 }

/-- A face whose five landmarks sit at horizontal offset 61, giving gaze
percentage 0.39 — 0.01 below the lower band bound. -/
def ScaredyCat.gazeBelowBoundFace : ScaredyCat.Detection :=
  { x := 0, y := 0, w := 100, h := 100
    rightEyeX := 61, rightEyeY := 0, leftEyeX := 61, leftEyeY := 0
    noseX := 61, noseY := 0, rightMouthX := 61, rightMouthY := 0
    leftMouthX := 61, leftMouthY := 0, score := 1 }

/-- A face whose five landmarks sit at horizontal offset 39, giving gaze
percentage 0.61 — 0.01 above the upper band bound. -/
def ScaredyCat.gazeAboveBoundFace : ScaredyCat.Detection :=
  { x := 0, y := 0, w := 100, h := 100
    rightEyeX := 39, rightEyeY := 0, leftEyeX := 39, leftEyeY := 0
    noseX := 39, noseY := 0, rightMouthX := 39, rightMouthY := 0
    leftMouthX := 39, leftMouthY := 0, score := 1 }

/-- C3: the gaze filter computes each face's gaze percentage as one minus
the mean of the five landmark horizontal offsets divided by the face width,
rounded to two decimals, and keeps a face iff that value lies inclusively
in `[(1-range)/2, (1-range)/2 + range]` for the active gaze range; a face
whose gaze percentage equals a bound exactly is retained, one 0.01 outside
a bound is rejected. -/
theorem c3_gaze_filter_band_inclusive :
    (∀ f : ScaredyCat.Detection,
      ScaredyCat.gazePct f = ScaredyCat.round2 (1 -
        ((f.rightEyeX - f.x) + (f.leftEyeX - f.x) + (f.noseX - f.x) +
         (f.rightMouthX - f.x) + (f.leftMouthX - f.x)) / 5 / f.w)) ∧
    (∀ (confirmed faces : List ScaredyCat.Detection) (f : ScaredyCat.Detection),
      f ∈ ScaredyCat.filterFacesByGaze confirmed faces ↔
        f ∈ faces ∧
        (1 - (if confirmed.length ≤ 0 then ScaredyCat.INIT_GAZE_RANGE
              else ScaredyCat.REPEAT_GAZE_RANGE)) / 2 ≤ ScaredyCat.gazePct f ∧
        ScaredyCat.gazePct f ≤
          (1 - (if confirmed.length ≤ 0 then ScaredyCat.INIT_GAZE_RANGE
                else ScaredyCat.REPEAT_GAZE_RANGE)) / 2 +
          (if confirmed.length ≤ 0 then ScaredyCat.INIT_GAZE_RANGE
            else ScaredyCat.REPEAT_GAZE_RANGE)) ∧
    (ScaredyCat.gazePct ScaredyCat.gazeAtLowerBoundFace = 40/100 ∧
      ScaredyCat.gazeAtLowerBoundFace ∈
        ScaredyCat.filterFacesByGaze [] [ScaredyCat.gazeAtLowerBoundFace]) ∧
    (ScaredyCat.gazePct ScaredyCat.gazeAtUpperBoundFace = 60/100 ∧
      ScaredyCat.gazeAtUpperBoundFace ∈
        ScaredyCat.filterFacesByGaze [] [ScaredyCat.gazeAtUpperBoundFace]) ∧
    (ScaredyCat.gazePct ScaredyCat.gazeBelowBoundFace = 39/100 ∧
      ScaredyCat.gazeBelowBoundFace ∉
        ScaredyCat.filterFacesByGaze [] [ScaredyCat.gazeBelowBoundFace]) ∧
    (ScaredyCat.gazePct ScaredyCat.gazeAboveBoundFace = 61/100 ∧
      ScaredyCat.gazeAboveBoundFace ∉
        ScaredyCat.filterFacesByGaze [] [ScaredyCat.gazeAboveBoundFace]) := by
  refine ⟨fun f => rfl, ?_, ⟨?_, ?_⟩, ⟨?_, ?_⟩, ⟨?_, ?_⟩, ⟨?_, ?_⟩⟩
  · intro confirmed faces f
    simp only [ScaredyCat.filterFacesByGaze, List.mem_filter, decide_eq_true_eq]
    by_cases hc : confirmed.length ≤ 0
    · have h1 : ScaredyCat.round2 ((1 - 20/100)/2) = (1 - (20:ℚ)/100)/2 := by
        norm_num [ScaredyCat.round2, round_eq]
      have h2 : ScaredyCat.round2 ((1 - 20/100)/2 + 20/100) =
          (1 - (20:ℚ)/100)/2 + 20/100 := by
        norm_num [ScaredyCat.round2, round_eq]
      simp only [if_pos hc, ScaredyCat.INIT_GAZE_RANGE, h1, h2]
    · have h1 : ScaredyCat.round2 ((1 - 28/100)/2) = (1 - (28:ℚ)/100)/2 := by
        norm_num [ScaredyCat.round2, round_eq]
      have h2 : ScaredyCat.round2 ((1 - 28/100)/2 + 28/100) =
          (1 - (28:ℚ)/100)/2 + 28/100 := by
        norm_num [ScaredyCat.round2, round_eq]
      simp only [if_neg hc, ScaredyCat.REPEAT_GAZE_RANGE, h1, h2]
  · norm_num [ScaredyCat.gazePct, ScaredyCat.gazeAtLowerBoundFace,
      ScaredyCat.round2, round_eq]
  · norm_num [ScaredyCat.filterFacesByGaze, ScaredyCat.gazePct,
      ScaredyCat.gazeAtLowerBoundFace, ScaredyCat.round2, round_eq]
  · norm_num [ScaredyCat.gazePct, ScaredyCat.gazeAtUpperBoundFace,
      ScaredyCat.round2, round_eq]
  · norm_num [ScaredyCat.filterFacesByGaze, ScaredyCat.gazePct,
      ScaredyCat.gazeAtUpperBoundFace, ScaredyCat.round2, round_eq]
  · norm_num [ScaredyCat.gazePct, ScaredyCat.gazeBelowBoundFace,
      ScaredyCat.round2, round_eq]
  · norm_num [ScaredyCat.filterFacesByGaze, ScaredyCat.gazePct,
      ScaredyCat.gazeBelowBoundFace, ScaredyCat.round2, round_eq]
  · norm_num [ScaredyCat.gazePct, ScaredyCat.gazeAboveBoundFace,
      ScaredyCat.round2, round_eq]
  · norm_num [ScaredyCat.filterFacesByGaze, ScaredyCat.gazePct,
      ScaredyCat.gazeAboveBoundFace, ScaredyCat.round2, round_eq]

namespace TickController

/-- Module constant `SERVO_PAUSE_POSITION` in `scaredycat/tickcontroller.py`. -/
def SERVO_PAUSE_POSITION : ℤ := 1050

/-- Module constant `SERVO_UNPAUSE_POSITION` in `scaredycat/tickcontroller.py`. -/
def SERVO_UNPAUSE_POSITION : ℤ := 800

/-- Class constant `PAUSE_SIGNAL`. -/
def PAUSE_SIGNAL : String := "pause"

/-- Class constant `UNPAUSE_SIGNAL`. -/
def UNPAUSE_SIGNAL : String := "unpause"

/-- One hardware output of the controller: a servo pulse-width write
(`self.__pwm.set_servo_pulsewidth(SERVO_PIN, w)`) or an electromagnet
level write (`GPIO.output(MAGNET_PIN, b)`). -/
inductive Output where
  | servoPulsewidth (width : ℤ)
  | magnet (level : Bool)
deriving DecidableEq, Repr

/-- Servo positions written by the `__unpause` ramp loop (lines 70–74):
`nextPosition` starts at the given value; while it exceeds
`SERVO_UNPAUSE_POSITION`, it is written and decreased by 10. -/
def unpauseRampFrom (next : ℤ) : List ℤ :=
  if SERVO_UNPAUSE_POSITION < next then
    next :: unpauseRampFrom (next - 10)
  else
    []
termination_by (next - SERVO_UNPAUSE_POSITION).toNat
decreasing_by
  simp_wf
  simp [SERVO_UNPAUSE_POSITION] at *
  omega

/-- Servo positions written by the `__pause` ramp loop (lines 103–107):
`nextPosition` starts at the given value; while it is below
`SERVO_PAUSE_POSITION`, it is written and increased by 10. -/
def pauseRampFrom (next : ℤ) : List ℤ :=
  if next < SERVO_PAUSE_POSITION then
    next :: pauseRampFrom (next + 10)
  else
    []
termination_by (SERVO_PAUSE_POSITION - next).toNat
decreasing_by
  simp_wf
  simp [SERVO_PAUSE_POSITION] at *
  omega

/-- Electromagnet writes of the `for i in range(n)` pulse loop of
`__unpause` (lines 77–88): each iteration turns the magnet on, then off
(the mid-pulse socket polling in the source is commented out). -/
def magnetPulses : ℕ → List Output
  | 0 => []
  | n + 1 => Output.magnet true :: Output.magnet false :: magnetPulses n

/-- `TickController.__unpause` (lines 60–91): a no-op when not paused
(`if self.__paused is False: return`); otherwise clear the paused flag,
ramp the servo from `SERVO_PAUSE_POSITION` down and pulse the magnet five
times.  Returns the new paused flag and the outputs performed. -/
def unpause (paused : Bool) : Bool × List Output :=
  if paused = false then
    (paused, [])
  else
    (false,
      (unpauseRampFrom SERVO_PAUSE_POSITION).map Output.servoPulsewidth
        ++ magnetPulses 5)

/-- `TickController.__pause` (lines 93–107): a no-op when already paused;
otherwise set the paused flag and ramp the servo from
`SERVO_UNPAUSE_POSITION` up. -/
def pause (paused : Bool) : Bool × List Output :=
  if paused = true then
    (paused, [])
  else
    (true, (pauseRampFrom SERVO_UNPAUSE_POSITION).map Output.servoPulsewidth)

/-- `TickController.__readAndRespondToControlMessage` (lines 40–58).  The
socket read is modelled by the `msg` argument: `none` when
`is_ready_to_read` timed out (the method returns `False`), otherwise the
received payload.  Result: new paused flag, outputs performed, and the
method's boolean return; an unknown payload raises
(`raise Exception(f"unknown signal: {signal}")`), modelled as
`Except.error`. -/
def readAndRespondToControlMessage (msg : Option String) (paused : Bool) :
    Except String (Bool × List Output × Bool) :=
  match msg with
  | none => Except.ok (paused, [], false)
  | some signal =>
    if signal = UNPAUSE_SIGNAL then
      Except.ok ((unpause paused).1, (unpause paused).2, true)
    else if signal = PAUSE_SIGNAL then
      Except.ok ((pause paused).1, (pause paused).2, true)
    else
      Except.error ("unknown signal: " ++ signal)

/-- Python runtime errors relevant to the controller. -/
inductive PyError where
  | attributeError (attr : String)
deriving DecidableEq, Repr

/-- Reading the instance attribute `self.__paused`, which in
`scaredycat/tickcontroller.py` may not have been assigned yet (`none`):
Python raises `AttributeError` on reading an unassigned attribute. -/
def readPausedAttr (pausedAttr : Option Bool) : Except PyError Bool :=
  match pausedAttr with
  | none => Except.error (PyError.attributeError "_TickController__paused")
  | some b => Except.ok b

/-- `TickController.__unpause` with the `__paused` attribute modelled as
possibly unassigned: its first statement, `if self.__paused is False`,
reads the attribute before anything else happens. -/
def unpauseFromAttr (pausedAttr : Option Bool) :
    Except PyError (Option Bool × List Output) := do
  let paused ← readPausedAttr pausedAttr
  if paused = false then
    pure (pausedAttr, [])
  else
    pure (some false,
      (unpauseRampFrom SERVO_PAUSE_POSITION).map Output.servoPulsewidth
        ++ magnetPulses 5)

/-- `TickController.__init__` of `scaredycat/tickcontroller.py` (lines
22–32): after the logger, GPIO and socket setup (external effects, not
modelled), it calls `self.__unpause()`; no statement of `__init__` or of
the methods it calls assigns `self.__paused` before that call, so the
attribute is still unassigned. -/
def init : Except PyError (Option Bool × List Output) :=
  unpauseFromAttr none

end TickController

set_option maxRecDepth 4000 in
/-- Concrete value of the unpause ramp: 1050 down to 810 in steps of 10. -/
theorem TickController.unpauseRampFrom_eval :
    TickController.unpauseRampFrom TickController.SERVO_PAUSE_POSITION =
      [1050, 1040, 1030, 1020, 1010, 1000, 990, 980, 970, 960, 950, 940,
       930, 920, 910, 900, 890, 880, 870, 860, 850, 840, 830, 820, 810] := by
  repeat (rw [TickController.unpauseRampFrom]; norm_num [TickController.SERVO_PAUSE_POSITION, TickController.SERVO_UNPAUSE_POSITION])

set_option maxRecDepth 4000 in
/-- Concrete value of the pause ramp: 800 up to 1040 in steps of 10. -/
theorem TickController.pauseRampFrom_eval :
    TickController.pauseRampFrom TickController.SERVO_UNPAUSE_POSITION =
      [800, 810, 820, 830, 840, 850, 860, 870, 880, 890, 900, 910, 920,
       930, 940, 950, 960, 970, 980, 990, 1000, 1010, 1020, 1030, 1040] := by
  repeat (rw [TickController.pauseRampFrom]; norm_num [TickController.SERVO_PAUSE_POSITION, TickController.SERVO_UNPAUSE_POSITION])

/-- C4: the actuator controller's handlers are idempotent — a second
consecutive PAUSE performs no output, and UNPAUSE while already running
performs no output — and applying UNPAUSE while paused performs exactly one
servo ramp toward the running position followed by exactly five
electromagnet on/off pulse cycles. -/
theorem c4_pause_unpause_idempotent :
    (∀ b : Bool, (TickController.pause (TickController.pause b).1).2 = []) ∧
    (TickController.unpause false).2 = [] ∧
    (TickController.unpause false).1 = false ∧
    (∀ b : Bool, (TickController.unpause (TickController.unpause b).1).2 = []) ∧
    (TickController.unpause true).1 = false ∧
    (TickController.unpause true).2 =
      (TickController.unpauseRampFrom TickController.SERVO_PAUSE_POSITION).map
        TickController.Output.servoPulsewidth ++ TickController.magnetPulses 5 ∧
    (TickController.unpause true).2.count (TickController.Output.magnet true) = 5 ∧
    (TickController.unpause true).2.count (TickController.Output.magnet false) = 5 := by
  refine ⟨?_, rfl, rfl, ?_, rfl, rfl, ?_, ?_⟩
  · intro b
    cases b <;> rfl
  · intro b
    cases b <;> rfl
  · rw [show (TickController.unpause true).2 =
      (TickController.unpauseRampFrom TickController.SERVO_PAUSE_POSITION).map
        TickController.Output.servoPulsewidth ++ TickController.magnetPulses 5
      from rfl, TickController.unpauseRampFrom_eval]
    decide
  · rw [show (TickController.unpause true).2 =
      (TickController.unpauseRampFrom TickController.SERVO_PAUSE_POSITION).map
        TickController.Output.servoPulsewidth ++ TickController.magnetPulses 5
      from rfl, TickController.unpauseRampFrom_eval]
    decide

/-- C5: a received payload that is neither the pause nor the resume signal
makes `__readAndRespondToControlMessage` raise (`Except.error`), with no
state change and no output performed before the raise. -/
theorem c5_unknown_signal_is_fatal_without_mutation
    (signal : String) (h1 : signal ≠ TickController.PAUSE_SIGNAL)
    (h2 : signal ≠ TickController.UNPAUSE_SIGNAL) (paused : Bool) :
    TickController.readAndRespondToControlMessage (some signal) paused =
      Except.error ("unknown signal: " ++ signal) := by
  simp [TickController.readAndRespondToControlMessage, h1, h2]

/-- Witness for `c5_unknown_signal_is_fatal_without_mutation` at the
concrete payload "stop". -/
theorem c5_unknown_signal_is_fatal_without_mutation_witness :
    "stop" ≠ TickController.PAUSE_SIGNAL ∧
    "stop" ≠ TickController.UNPAUSE_SIGNAL ∧
    TickController.readAndRespondToControlMessage (some "stop") false =
      Except.error ("unknown signal: " ++ "stop") :=
  ⟨by decide, by decide,
    c5_unknown_signal_is_fatal_without_mutation "stop" (by decide) (by decide) false⟩

/-- C9: constructing the servo/electromagnet `TickController` always fails
with an `AttributeError`: `__init__` calls `__unpause`, whose first
statement reads `self.__paused`, and no code path assigns that attribute
before the read. -/
theorem c9_construction_always_raises_attribute_error :
    TickController.init =
      Except.error
        (TickController.PyError.attributeError "_TickController__paused") := rfl

/-- C10: neither servo ramp ever writes its target pulse-width: the pause
ramp writes 800, 810, …, 1040 (last write 1040, never
`SERVO_PAUSE_POSITION = 1050`), and the unpause ramp writes 1050, 1040, …,
810 (last write 810, never `SERVO_UNPAUSE_POSITION = 800`). -/
theorem c10_ramps_stop_short_of_targets :
    (TickController.pause false).2 =
      (TickController.pauseRampFrom TickController.SERVO_UNPAUSE_POSITION).map
        TickController.Output.servoPulsewidth ∧
    TickController.pauseRampFrom TickController.SERVO_UNPAUSE_POSITION =
      [800, 810, 820, 830, 840, 850, 860, 870, 880, 890, 900, 910, 920,
       930, 940, 950, 960, 970, 980, 990, 1000, 1010, 1020, 1030, 1040] ∧
    (TickController.pauseRampFrom
        TickController.SERVO_UNPAUSE_POSITION).getLast? = some 1040 ∧
    TickController.SERVO_PAUSE_POSITION ∉
      TickController.pauseRampFrom TickController.SERVO_UNPAUSE_POSITION ∧
    (∀ x ∈ TickController.pauseRampFrom TickController.SERVO_UNPAUSE_POSITION,
      x < TickController.SERVO_PAUSE_POSITION) ∧
    TickController.unpauseRampFrom TickController.SERVO_PAUSE_POSITION =
      [1050, 1040, 1030, 1020, 1010, 1000, 990, 980, 970, 960, 950, 940,
       930, 920, 910, 900, 890, 880, 870, 860, 850, 840, 830, 820, 810] ∧
    (TickController.unpauseRampFrom
        TickController.SERVO_PAUSE_POSITION).getLast? = some 810 ∧
    TickController.SERVO_UNPAUSE_POSITION ∉
      TickController.unpauseRampFrom TickController.SERVO_PAUSE_POSITION ∧
    (∀ x ∈ TickController.unpauseRampFrom TickController.SERVO_PAUSE_POSITION,
      TickController.SERVO_UNPAUSE_POSITION < x) := by
  refine ⟨rfl, ?_⟩
  rw [TickController.pauseRampFrom_eval, TickController.unpauseRampFrom_eval]
  exact ⟨rfl, by decide, by decide, by decide, rfl, by decide, by decide,
    by decide⟩

namespace Motor

/-- Class constant `DIRECTION_LEFT` of `watchcat/motor.py`. -/
def DIRECTION_LEFT : Bool := false

/-- Class constant `DIRECTION_RIGHT` of `watchcat/motor.py`. -/
def DIRECTION_RIGHT : Bool := true

/-- Class constant `CENTER_POSITION` of `watchcat/motor.py`. -/
def CENTER_POSITION : ℤ := 0

/-- Class constant `LEFT_POSITION` of `watchcat/motor.py`. -/
def LEFT_POSITION : ℤ := -180

/-- Class constant `RIGHT_POSITION` of `watchcat/motor.py`. -/
def RIGHT_POSITION : ℤ := 130

/-- Class constant `PAUSE_SIGNAL` of `watchcat/motor.py`. -/
def PAUSE_SIGNAL : String := "pause"

/-- Class constant `RUN_SIGNAL` of `watchcat/motor.py`. -/
def RUN_SIGNAL : String := "run"

/-- Class constant `STEP_SEQUENCE` of `watchcat/motor.py`: the 8-entry
half-step phase sequence. -/
def STEP_SEQUENCE : List (List ℕ) :=
  [[1, 0, 0, 1],
   [1, 0, 0, 0],
   [1, 1, 0, 0],
   [0, 1, 0, 0],
   [0, 1, 1, 0],
   [0, 0, 1, 0],
   [0, 0, 1, 1],
   [0, 0, 0, 1]]

/-- Mutable state of a `Motor` instance: `__paused`, `__position`,
`__direction`, `__motor_step_counter` (the GPIO pin numbers are wiring
configuration with no bearing on the dynamics). -/
structure MotorState where
  paused : Bool
  position : ℤ
  direction : Bool
  motorStepCounter : ℤ
deriving DecidableEq, Repr

/-- State set in `Motor.__init__` (lines 44–48). -/
def initMotor : MotorState :=
  { paused := false
    position := CENTER_POSITION
    direction := DIRECTION_RIGHT
    motorStepCounter := 0 }

/-- `Motor.__step` (lines 128–139): write the phase pattern at the current
step counter to the four motor pins, then move one step in the current
direction, updating the position and the step counter modulo 8 (Python `%`
with a positive modulus agrees with `Int.emod`, Lean's `%` on ℤ).  Returns
the new state and the pin pattern written. -/
def step (s : MotorState) : MotorState × List ℕ :=
  let pins := STEP_SEQUENCE.getD s.motorStepCounter.toNat []
  if s.direction = DIRECTION_LEFT then
    ({ s with position := s.position - 1
              motorStepCounter := (s.motorStepCounter - 1) % 8 }, pins)
  else if s.direction = DIRECTION_RIGHT then
    ({ s with position := s.position + 1
              motorStepCounter := (s.motorStepCounter + 1) % 8 }, pins)
  else
    (s, pins)

/-- `Motor.pause` (lines 80–81). -/
def pause (s : MotorState) : MotorState := { s with paused := true }

/-- `Motor.unpause` (lines 83–84). -/
def unpause (s : MotorState) : MotorState := { s with paused := false }

/-- Extreme handling at the top of each `Motor.run` loop iteration
(lines 101–109): at the left extreme the direction becomes rightward, at
the right extreme leftward (the dwell sleeps are timing only). -/
def reverseAtExtremes (s : MotorState) : MotorState :=
  if s.position = LEFT_POSITION then
    { s with direction := DIRECTION_RIGHT }
  else if s.position = RIGHT_POSITION then
    { s with direction := DIRECTION_LEFT }
  else
    s

/-- One iteration of the `while True` loop of `Motor.run` (lines 100–126),
with the current value of the loop's `signal` variable (the most recently
received payload, initially `RUN_SIGNAL`) as input: reverse at the
extremes, set the paused flag from the signal (raising on an unknown
payload), and step exactly when not paused.  Returns the new state and the
pin patterns written. -/
def runTick (s : MotorState) (signal : String) :
    Except String (MotorState × List (List ℕ)) := do
  let s1 := reverseAtExtremes s
  let s2 ←
    if signal = RUN_SIGNAL then
      pure (unpause s1)
    else if signal = PAUSE_SIGNAL then
      pure (pause s1)
    else
      Except.error ("unknown signal: " ++ signal)
  if s2.paused = false then
    let r := step s2
    pure (r.1, [r.2])
  else
    pure (s2, [])

/-- Repeated invocation of `Motor.__step` (as in `Motor.calibrate_position`
or a run of consecutive unpaused ticks away from the extremes). -/
def stepN : ℕ → MotorState → MotorState
  | 0, s => s
  | n + 1, s => stepN n (step s).1

/-- Number of steps from the left extreme to the right extreme,
`RIGHT_POSITION - LEFT_POSITION` (the spec's `FULL_SWEEP`). -/
def FULL_SWEEP : ℕ := (RIGHT_POSITION - LEFT_POSITION).toNat

end Motor

/-- Stepping rightward n times adds n to the position, advances the step
counter by n modulo 8, and leaves the direction and paused flag unchanged. -/
theorem Motor.stepN_right (n : ℕ) (s : Motor.MotorState)
    (hd : s.direction = Motor.DIRECTION_RIGHT) :
    (Motor.stepN n s).position = s.position + n ∧
    (Motor.stepN n s).motorStepCounter % 8 = (s.motorStepCounter + n) % 8 ∧
    (Motor.stepN n s).direction = Motor.DIRECTION_RIGHT ∧
    (Motor.stepN n s).paused = s.paused := by
  induction n generalizing s with
  | zero => simp [Motor.stepN, hd]
  | succ n ih =>
    have hstep : (Motor.step s).1 =
        { s with position := s.position + 1
                 motorStepCounter := (s.motorStepCounter + 1) % 8 } := by
      simp [Motor.step, hd, Motor.DIRECTION_LEFT, Motor.DIRECTION_RIGHT]
    have h2 := ih (Motor.step s).1 (by rw [hstep]; exact hd)
    rw [Motor.stepN] at *
    refine ⟨?_, ?_, h2.2.2.1, by rw [h2.2.2.2, hstep]⟩
    · rw [h2.1, hstep]
      push_cast
      ring
    · rw [h2.2.1, hstep]
      dsimp only
      omega

/-- C7: from the left extreme, moving rightward and unpaused, executing
`FULL_SWEEP = RIGHT_POSITION - LEFT_POSITION = 310` steps brings the
position to exactly the right extreme, and the phase-sequence counter is
congruent to `initial_index + steps` both modulo 8 and modulo 4. -/
theorem c7_full_sweep_reaches_right_extreme (c : ℤ) :
    (Motor.stepN Motor.FULL_SWEEP
      { paused := false, position := Motor.LEFT_POSITION,
        direction := Motor.DIRECTION_RIGHT, motorStepCounter := c }).position =
      Motor.RIGHT_POSITION ∧
    (Motor.stepN Motor.FULL_SWEEP
      { paused := false, position := Motor.LEFT_POSITION,
        direction := Motor.DIRECTION_RIGHT,
        motorStepCounter := c }).motorStepCounter % 8 =
      (c + Motor.FULL_SWEEP) % 8 ∧
    (Motor.stepN Motor.FULL_SWEEP
      { paused := false, position := Motor.LEFT_POSITION,
        direction := Motor.DIRECTION_RIGHT,
        motorStepCounter := c }).motorStepCounter % 4 =
      (c + Motor.FULL_SWEEP) % 4 := by
  have h := Motor.stepN_right Motor.FULL_SWEEP
    { paused := false, position := Motor.LEFT_POSITION,
      direction := Motor.DIRECTION_RIGHT, motorStepCounter := c } rfl
  refine ⟨?_, h.2.1, ?_⟩
  · rw [h.1]
    norm_num [Motor.FULL_SWEEP, Motor.LEFT_POSITION, Motor.RIGHT_POSITION]
  · have h21 := h.2.1
    dsimp only at h21
    omega

/-- C8: `Motor.pause` and `Motor.unpause` change only the paused flag —
position, direction and phase counter are untouched — and a run-loop tick
whose signal is PAUSE performs no step: it emits no pin pattern and leaves
the position and phase counter exactly where they were, so stepping resumes
from the same position and phase. -/
theorem c8_pause_suppresses_stepping_only :
    (∀ s : Motor.MotorState,
      (Motor.pause s).paused = true ∧
      (Motor.pause s).position = s.position ∧
      (Motor.pause s).direction = s.direction ∧
      (Motor.pause s).motorStepCounter = s.motorStepCounter) ∧
    (∀ s : Motor.MotorState,
      (Motor.unpause s).paused = false ∧
      (Motor.unpause s).position = s.position ∧
      (Motor.unpause s).direction = s.direction ∧
      (Motor.unpause s).motorStepCounter = s.motorStepCounter) ∧
    (∀ s : Motor.MotorState,
      Motor.runTick s Motor.PAUSE_SIGNAL =
        Except.ok (Motor.pause (Motor.reverseAtExtremes s), []) ∧
      (Motor.reverseAtExtremes s).position = s.position ∧
      (Motor.reverseAtExtremes s).motorStepCounter = s.motorStepCounter) := by
  refine ⟨fun s => ⟨rfl, rfl, rfl, rfl⟩, fun s => ⟨rfl, rfl, rfl, rfl⟩,
    fun s => ⟨?_, ?_, ?_⟩⟩
  · simp [Motor.runTick, Motor.RUN_SIGNAL, Motor.PAUSE_SIGNAL, Motor.pause]
    rfl
  · unfold Motor.reverseAtExtremes
    split_ifs <;> rfl
  · unfold Motor.reverseAtExtremes
    split_ifs <;> rfl
